import Mathlib

/-!
Verification development for the fitzig guided interval-timer session runner.

The definitions below are a shallow embedding of the repository's code:
JavaScript millisecond timestamps become `Int`, whole-second counters become
`Int` (they are plain JS numbers in the source), list indices become `Nat`
(every index the program ever stores is produced by `Math.max(0, ...)` or by
incrementing from 0), and fallible decoding returns `Option`.
Each definition cites the source file and function it embeds.
-/

namespace Fitzig

/-- From src/components/app-gradient-background.tsx (types module):
SessionStatus = 'idle' | 'exercise' | 'cooldown' | 'paused'. -/
inductive SessionStatus where
  | idle
  | exercise
  | cooldown
  | paused
deriving DecidableEq

/-- From the types module: SessionExercise. -/
structure SessionExercise where
  exerciseId : String
  durationSeconds : Int
  order : Int
deriving DecidableEq

/-- From the types module: SessionTemplate. -/
structure SessionTemplate where
  id : String
  name : String
  setsCount : Int
  cooldownSeconds : Int
  exercises : List SessionExercise
  createdAt : Int
deriving DecidableEq

/-- src/lib/session-runner.ts, isRunningStatus:
status === 'exercise' || status === 'cooldown'. -/
def isRunningStatus : SessionStatus → Bool
  | .exercise => true
  | .cooldown => true
  | _ => false

/-- src/lib/session-runner.ts, RuntimeSessionState.
`pausedPhase` has TS type RunningStatus | null; we embed it as
`Option SessionStatus` (only exercise/cooldown values ever occur). -/
structure RuntimeSessionState where
  status : SessionStatus
  currentExerciseIndex : Nat
  currentSetIndex : Nat
  remainingSeconds : Int
  phaseStartedAt : Option Int
  startedAt : Option Int
  pausedAt : Option Int
  pausedPhase : Option SessionStatus
deriving DecidableEq

/-- src/lib/session-runner.ts, AdvanceRuntimeResult. -/
structure AdvanceRuntimeResult where
  nextState : RuntimeSessionState
  completed : Bool
deriving DecidableEq

/-- src/lib/session-runner.ts line 21. -/
def MAX_TRANSITIONS_PER_TICK : Nat := 512

/-- The elapsed-whole-seconds computation appearing twice in
src/lib/session-runner.ts: Math.floor(Math.max(0, now - phaseStartedAt) / 1000).
`Int.toNat` is exactly Math.max(0, ·) on integers, and `Nat` division is the
floor of the exact quotient. -/
def elapsedWholeSeconds (now phaseStartedAt : Int) : Int :=
  (((now - phaseStartedAt).toNat / 1000 : Nat) : Int)

/-- src/lib/session-runner.ts, getCurrentRemainingSeconds.
The source guard is a single `!isRunningStatus(s) || phaseStartedAt === null`;
here the null test is the outer match and the status test the inner if, which
selects the same branch in every case. -/
def getCurrentRemainingSeconds (runtime : RuntimeSessionState) (now : Int) : Int :=
  match runtime.phaseStartedAt with
  | none => max 0 runtime.remainingSeconds
  | some ps =>
    if isRunningStatus runtime.status = false then max 0 runtime.remainingSeconds
    else max 0 (runtime.remainingSeconds - elapsedWholeSeconds now ps)

/-- src/lib/session-runner.ts, moveToNextExercise.
`template.exercises[i]` is read in the source only under the guard
`i < template.exercises.length` (and as `exercises[0]`, reachable only for the
non-empty templates the app validates at creation); `List.getD` with a dummy
default is that access. -/
def moveToNextExercise (state : RuntimeSessionState) (template : SessionTemplate)
    (phaseStartAt : Int) : Option RuntimeSessionState :=
  let nextExerciseIndex := state.currentExerciseIndex + 1
  if nextExerciseIndex < template.exercises.length then
    let nextExercise := template.exercises.getD nextExerciseIndex ⟨"", 0, 0⟩
    some { state with
      status := .exercise
      currentExerciseIndex := nextExerciseIndex
      remainingSeconds := nextExercise.durationSeconds
      phaseStartedAt := some phaseStartAt
      pausedAt := none
      pausedPhase := none }
  else
    let nextSetIndex := state.currentSetIndex + 1
    if (nextSetIndex : Int) < template.setsCount then
      let firstExercise := template.exercises.getD 0 ⟨"", 0, 0⟩
      some { state with
        status := .exercise
        currentSetIndex := nextSetIndex
        currentExerciseIndex := 0
        remainingSeconds := firstExercise.durationSeconds
        phaseStartedAt := some phaseStartAt
        pausedAt := none
        pausedPhase := none }
    else
      none

/-- src/lib/session-runner.ts, transitionAtBoundary. -/
def transitionAtBoundary (state : RuntimeSessionState) (template : SessionTemplate)
    (boundaryTime : Int) : Option RuntimeSessionState :=
  if state.status = .exercise ∧ template.cooldownSeconds > 0 then
    some { state with
      status := .cooldown
      remainingSeconds := template.cooldownSeconds
      phaseStartedAt := some boundaryTime
      pausedAt := none
      pausedPhase := none }
  else
    moveToNextExercise state template boundaryTime

/-- The `for (let transitions = 0; transitions < MAX_TRANSITIONS_PER_TICK; ...)`
loop body of advanceRuntimeToNow (src/lib/session-runner.ts lines 103-122),
with the remaining iteration budget as explicit fuel. Running out of fuel is
the loop exiting by its bound, which the source treats as completion.
The source's combined `!isRunningStatus(st) || phaseStartedAt === null` guard
is again split into the match and the inner if. -/
def advanceLoop (template : SessionTemplate) (now : Int) :
    Nat → RuntimeSessionState → AdvanceRuntimeResult
  | 0, st => { nextState := st, completed := true }
  | fuel + 1, st =>
    match st.phaseStartedAt with
    | none => { nextState := st, completed := false }
    | some ps =>
      if isRunningStatus st.status = false then { nextState := st, completed := false }
      else if elapsedWholeSeconds now ps < st.remainingSeconds then
        { nextState := st, completed := false }
      else
        match transitionAtBoundary st template (ps + st.remainingSeconds * 1000) with
        | none => { nextState := st, completed := true }
        | some transitioned => advanceLoop template now fuel transitioned

/-- src/lib/session-runner.ts, advanceRuntimeToNow. -/
def advanceRuntimeToNow (runtime : RuntimeSessionState) (template : SessionTemplate)
    (now : Int) : AdvanceRuntimeResult :=
  if isRunningStatus runtime.status = false ∨ runtime.phaseStartedAt = none then
    { nextState := runtime, completed := false }
  else
    advanceLoop template now MAX_TRANSITIONS_PER_TICK runtime

/-- Instrumented replay of `advanceLoop`: the list of states produced by the
successive transitionAtBoundary applications of one advanceRuntimeToNow call,
with identical branch conditions. Used to state transition-count and
phase-anchoring properties of the loop. -/
def advanceTraceLoop (template : SessionTemplate) (now : Int) :
    Nat → RuntimeSessionState → List RuntimeSessionState
  | 0, _ => []
  | fuel + 1, st =>
    match st.phaseStartedAt with
    | none => []
    | some ps =>
      if isRunningStatus st.status = false then []
      else if elapsedWholeSeconds now ps < st.remainingSeconds then []
      else
        match transitionAtBoundary st template (ps + st.remainingSeconds * 1000) with
        | none => []
        | some transitioned => transitioned :: advanceTraceLoop template now fuel transitioned

/-- The relation between one phase state and the state produced from it by the
loop's boundary transition: the new phase starts exactly at the old phase's
boundary timestamp phaseStartedAt + remainingSeconds * 1000. -/
def boundaryStep (a b : RuntimeSessionState) : Prop :=
  ∀ q, a.phaseStartedAt = some q →
    b.phaseStartedAt = some (q + a.remainingSeconds * 1000)

/-- A template the session-start path accepts: non-empty exercise list,
positive per-exercise durations, at least one set, non-negative cooldown. -/
def ValidTemplate (template : SessionTemplate) : Prop :=
  template.exercises ≠ [] ∧
  (∀ e ∈ template.exercises, 0 < e.durationSeconds) ∧
  1 ≤ template.setsCount ∧
  0 ≤ template.cooldownSeconds

instance (template : SessionTemplate) : Decidable (ValidTemplate template) := by
  unfold ValidTemplate; infer_instance

/-- From the types module: ActiveSessionSnapshot (the persisted shape).
Optional TS fields (`pausedPhase?`, `countdownRemaining?`,
`countdownTargetStatus?`) are `Option`s with `none` for undefined/null. -/
structure ActiveSessionSnapshot where
  templateId : String
  currentExerciseIndex : Nat
  currentSetIndex : Nat
  status : SessionStatus
  remainingSeconds : Int
  phaseStartedAt : Option Int
  pausedAt : Option Int
  startedAt : Option Int
  updatedAt : Int
  pausedPhase : Option SessionStatus
  countdownRemaining : Option Int
  countdownTargetStatus : Option SessionStatus
deriving DecidableEq

/-- src/app/session/run.tsx line 379. -/
def SNAPSHOT_MAX_AGE_MS : Int := 24 * 60 * 60 * 1000

/-- src/app/session/run.tsx, the snapshot object literal built by
persistSnapshotNow (the pure projection; the surrounding storage call and the
active-session check are orchestration). `now` is the Date.now() it samples.
Math.round is the identity on our integer model of JS numbers. -/
def encodeSnapshot (templateId : String) (runtime : RuntimeSessionState)
    (countdownRemaining : Int) (countdownTargetStatus : Option SessionStatus)
    (now : Int) : ActiveSessionSnapshot :=
  { templateId := templateId
    currentExerciseIndex := runtime.currentExerciseIndex
    currentSetIndex := runtime.currentSetIndex
    status := runtime.status
    remainingSeconds := getCurrentRemainingSeconds runtime now
    phaseStartedAt :=
      if isRunningStatus runtime.status = true ∧ runtime.phaseStartedAt ≠ none then some now
      else runtime.phaseStartedAt
    pausedAt := runtime.pausedAt
    startedAt := runtime.startedAt
    updatedAt := now
    pausedPhase := runtime.pausedPhase
    countdownRemaining := if countdownRemaining > 0 then some countdownRemaining else none
    countdownTargetStatus := countdownTargetStatus }

/-- src/app/session/run.tsx, normalizeSnapshotToRuntime. `decodeNow` is the
Date.now() used as fallback pausedAt in the running-status-without-anchor
coercion branch. Math.round on an integer is the identity. -/
def normalizeSnapshotToRuntime (snapshot : ActiveSessionSnapshot)
    (decodeNow : Int) : RuntimeSessionState :=
  let status := snapshot.status
  let remainingSeconds := max 0 snapshot.remainingSeconds
  let phaseStartedAt := snapshot.phaseStartedAt
  let pausedAt := snapshot.pausedAt
  let startedAt := snapshot.startedAt
  let pausedPhase :=
    if status = .paused ∧ snapshot.pausedPhase = none then some SessionStatus.exercise
    else snapshot.pausedPhase
  if (status = .exercise ∨ status = .cooldown) ∧ phaseStartedAt = none then
    { status := .paused
      currentExerciseIndex := snapshot.currentExerciseIndex
      currentSetIndex := snapshot.currentSetIndex
      remainingSeconds := remainingSeconds
      phaseStartedAt := none
      startedAt := startedAt
      pausedAt := some (pausedAt.getD decodeNow)
      pausedPhase := some (pausedPhase.getD status) }
  else
    { status := status
      currentExerciseIndex := snapshot.currentExerciseIndex
      currentSetIndex := snapshot.currentSetIndex
      remainingSeconds := remainingSeconds
      phaseStartedAt := phaseStartedAt
      startedAt := startedAt
      pausedAt := pausedAt
      pausedPhase := pausedPhase }

/-- Outcome of the resume-path snapshot handling in RunSessionScreen's load
effect (src/app/session/run.tsx lines 597-637). -/
inductive ResumeLoadResult where
  | noRecoverableSession
  | sessionExpired
  | templateUnavailable
  | restored (template : SessionTemplate) (runtime : RuntimeSessionState)
      (countdownRemaining : Int) (countdownTargetStatus : Option SessionStatus)
deriving DecidableEq

/-- src/app/session/run.tsx, the resume branch of the load effect: missing
snapshot, the 24-hour expiry test on updatedAt, missing template, or a
successful restore through normalizeSnapshotToRuntime. `templateLookup` is
the result of getSessionTemplateById for the snapshot's templateId. -/
def resumeLoad (snapshot : Option ActiveSessionSnapshot)
    (templateLookup : Option SessionTemplate) (now : Int) : ResumeLoadResult :=
  match snapshot with
  | none => .noRecoverableSession
  | some snap =>
    if now - snap.updatedAt > SNAPSHOT_MAX_AGE_MS then .sessionExpired
    else
      match templateLookup with
      | none => .templateUnavailable
      | some template =>
        .restored template (normalizeSnapshotToRuntime snap now)
          (max 0 (snap.countdownRemaining.getD 0))
          (match snap.countdownTargetStatus with
           | some .exercise => some SessionStatus.exercise
           | some .cooldown => some SessionStatus.cooldown
           | _ => none)

/-- The slice of AppSettings consumed by startPhaseWithOptionalCountdown. -/
structure RunSettings where
  countdownEnabled : Bool
  countdownSeconds : Int
deriving DecidableEq

/-- The screen state touched by the pause/resume handlers: the runtime plus
the countdown pre-roll sub-state (src/app/session/run.tsx useState hooks). -/
structure OrchestratorState where
  runtime : RuntimeSessionState
  countdownRemaining : Int
  countdownTargetStatus : Option SessionStatus
deriving DecidableEq

/-- src/app/session/run.tsx, startPhaseWithOptionalCountdown. `now` is the
Date.now() sampled when the countdown-disabled branch starts the phase. -/
def startPhaseWithOptionalCountdown (settings : RunSettings)
    (st : OrchestratorState) (targetStatus : SessionStatus) (now : Int) :
    OrchestratorState :=
  if settings.countdownEnabled then
    { st with
      countdownTargetStatus := some targetStatus
      countdownRemaining := settings.countdownSeconds }
  else
    { st with
      runtime := { st.runtime with
        status := targetStatus
        phaseStartedAt := some now
        pausedAt := none
        pausedPhase := none } }

/-- src/app/session/run.tsx, handlePause (the setRuntime update it applies;
`now` is its Date.now() sample). -/
def handlePause (runtime : RuntimeSessionState) (now : Int) : RuntimeSessionState :=
  if isRunningStatus runtime.status = false then runtime
  else
    { runtime with
      status := .paused
      remainingSeconds := getCurrentRemainingSeconds runtime now
      phaseStartedAt := none
      pausedAt := some now
      pausedPhase :=
        if isRunningStatus runtime.status = true then some runtime.status
        else some SessionStatus.exercise }

/-- src/app/session/run.tsx, handleResume. -/
def handleResume (settings : RunSettings) (st : OrchestratorState) (now : Int) :
    OrchestratorState :=
  if st.runtime.status ≠ .paused then st
  else startPhaseWithOptionalCountdown settings st (st.runtime.pausedPhase.getD .exercise) now

/-- JS values as seen by the storage decoder (src/lib/workout-storage.ts):
the `unknown` parsed from AsyncStorage. `null` covers null/undefined-as-value;
a missing object field is `Option.none` from the lookup. -/
inductive JsVal where
  | null
  | bool (b : Bool)
  | num (n : Int)
  | str (s : String)
  | arr (elems : List JsVal)
  | obj (fields : List (String × JsVal))

/-- Property access `candidate.key` on a decoded JS value: only objects have
named fields; anything else yields undefined (`none`). -/
def jsField : JsVal → String → Option JsVal
  | .obj fields, key => fields.lookup key
  | _, _ => none

/-- The `!input || typeof input !== 'object'` entry guard of
normalizeActiveSnapshot: objects and arrays pass, everything else is
rejected immediately. -/
def isObjectLike : JsVal → Bool
  | .obj _ => true
  | .arr _ => true
  | _ => false

/-- src/lib/workout-storage.ts, normalizeSessionStatus (here over the
optional field value; a missing or non-string field matches no case). -/
def normalizeSessionStatus : Option JsVal → Option SessionStatus
  | some (.str "idle") => some .idle
  | some (.str "exercise") => some .exercise
  | some (.str "cooldown") => some .cooldown
  | some (.str "paused") => some .paused
  | _ => none

/-- The `typeof x === 'number' && Number.isFinite(x)` test: our integer model
of JS numbers is always finite, so this is just the number-typed projection. -/
def asFiniteNumber : Option JsVal → Option Int
  | some (.num n) => some n
  | _ => none

/-- The `typeof x === 'string'` test as a projection. -/
def asString : Option JsVal → Option String
  | some (.str s) => some s
  | _ => none

/-- src/lib/workout-storage.ts, normalizeActiveSnapshot. Math.floor is the
identity on integers; the source's sequence of early `return null` checks is
the nested match. -/
def normalizeActiveSnapshot (input : JsVal) : Option ActiveSessionSnapshot :=
  if isObjectLike input = false then none
  else
    match normalizeSessionStatus (jsField input "status") with
    | none => none
    | some status =>
      match asString (jsField input "templateId") with
      | none => none
      | some templateId =>
        if templateId.length = 0 then none
        else
          match asFiniteNumber (jsField input "currentExerciseIndex"),
                asFiniteNumber (jsField input "currentSetIndex"),
                asFiniteNumber (jsField input "remainingSeconds"),
                asFiniteNumber (jsField input "updatedAt") with
          | some currentExerciseIndex, some currentSetIndex,
            some remainingSeconds, some updatedAt =>
            some { templateId := templateId
                   currentExerciseIndex := (max 0 currentExerciseIndex).toNat
                   currentSetIndex := (max 0 currentSetIndex).toNat
                   status := status
                   remainingSeconds := max 0 remainingSeconds
                   phaseStartedAt := asFiniteNumber (jsField input "phaseStartedAt")
                   pausedAt := asFiniteNumber (jsField input "pausedAt")
                   startedAt := asFiniteNumber (jsField input "startedAt")
                   updatedAt := updatedAt
                   pausedPhase :=
                     match jsField input "pausedPhase" with
                     | some (.str "exercise") => some SessionStatus.exercise
                     | some (.str "cooldown") => some SessionStatus.cooldown
                     | _ => none
                   countdownRemaining :=
                     match asFiniteNumber (jsField input "countdownRemaining") with
                     | some n => some (max 0 n)
                     | none => none
                   countdownTargetStatus :=
                     match jsField input "countdownTargetStatus" with
                     | some (.str "exercise") => some SessionStatus.exercise
                     | some (.str "cooldown") => some SessionStatus.cooldown
                     | _ => none }
          | _, _, _, _ => none

/-- The required-field validation performed by normalizeActiveSnapshot, as one
boolean: object-typed input, a recognized status string, a non-empty string
templateId, and number-typed currentExerciseIndex, currentSetIndex,
remainingSeconds and updatedAt. -/
def hasRequiredSnapshotFields (input : JsVal) : Bool :=
  isObjectLike input &&
  (normalizeSessionStatus (jsField input "status")).isSome &&
  (match asString (jsField input "templateId") with
   | some templateId => templateId.length != 0
   | none => false) &&
  (asFiniteNumber (jsField input "currentExerciseIndex")).isSome &&
  (asFiniteNumber (jsField input "currentSetIndex")).isSome &&
  (asFiniteNumber (jsField input "remainingSeconds")).isSome &&
  (asFiniteNumber (jsField input "updatedAt")).isSome

/-- The index/remaining-time invariant the runtime preserves relative to its
template: indices in range, non-negative remaining seconds. -/
def StateInv (template : SessionTemplate) (st : RuntimeSessionState) : Prop :=
  st.currentExerciseIndex < template.exercises.length ∧
  (st.currentSetIndex : Int) < template.setsCount ∧
  0 ≤ st.remainingSeconds

end Fitzig

/-! ### Shared lemmas about the session runner -/

namespace Fitzig


theorem elapsed_nonneg (now p : Int) : 0 ≤ elapsedWholeSeconds now p := by
  unfold elapsedWholeSeconds; positivity

theorem elapsed_self (now : Int) : elapsedWholeSeconds now now = 0 := by
  unfold elapsedWholeSeconds; omega

theorem not_elapsed_lt_at_boundary (p rem : Int) :
    ¬ elapsedWholeSeconds (p + rem * 1000) p < rem := by
  unfold elapsedWholeSeconds; omega

theorem elapsed_lt_of_before_boundary {now p rem : Int} (hrem : 0 < rem)
    (hnow : now < p + rem * 1000) : elapsedWholeSeconds now p < rem := by
  unfold elapsedWholeSeconds; omega

theorem getD_mem_of_lt {α : Type _} :
    ∀ (l : List α) (i : Nat) (d : α), i < l.length → l.getD i d ∈ l
  | a :: l, 0, d, _ => by simp [List.getD]
  | a :: l, i + 1, d, h => by
    simp only [List.getD_cons_succ]
    exact List.mem_cons_of_mem a (getD_mem_of_lt l i d (by simpa using h))

theorem transitionAtBoundary_fields {state : RuntimeSessionState}
    {template : SessionTemplate} {boundaryTime : Int} {t : RuntimeSessionState}
    (h : transitionAtBoundary state template boundaryTime = some t) :
    t.phaseStartedAt = some boundaryTime ∧ isRunningStatus t.status = true ∧
    t.pausedAt = none ∧ t.pausedPhase = none := by
  unfold transitionAtBoundary moveToNextExercise at h
  dsimp only at h
  split at h
  · cases h; simp [isRunningStatus]
  · split at h
    · cases h; simp [isRunningStatus]
    · split at h
      · cases h; simp [isRunningStatus]
      · cases h

theorem transitionAtBoundary_remaining_pos {state : RuntimeSessionState}
    {template : SessionTemplate} {boundaryTime : Int} {t : RuntimeSessionState}
    (hne : template.exercises ≠ [])
    (hdur : ∀ e ∈ template.exercises, 0 < e.durationSeconds)
    (h : transitionAtBoundary state template boundaryTime = some t) :
    0 < t.remainingSeconds := by
  unfold transitionAtBoundary moveToNextExercise at h
  dsimp only at h
  split at h
  · cases h
    rename_i hguard
    exact hguard.2
  · split at h
    · cases h
      rename_i hlt
      exact hdur _ (getD_mem_of_lt _ _ _ hlt)
    · split at h
      · cases h
        have hpos : 0 < template.exercises.length := List.length_pos.mpr hne
        exact hdur _ (getD_mem_of_lt _ _ _ hpos)
      · cases h

theorem transitionAtBoundary_indices {state : RuntimeSessionState}
    {template : SessionTemplate} {boundaryTime : Int} {t : RuntimeSessionState}
    (hidx : state.currentExerciseIndex < template.exercises.length)
    (hset : (state.currentSetIndex : Int) < template.setsCount)
    (h : transitionAtBoundary state template boundaryTime = some t) :
    t.currentExerciseIndex < template.exercises.length ∧
    (t.currentSetIndex : Int) < template.setsCount := by
  unfold transitionAtBoundary moveToNextExercise at h
  dsimp only at h
  split at h
  · cases h; exact ⟨hidx, hset⟩
  · split at h
    · cases h
      rename_i hlt
      exact ⟨hlt, hset⟩
    · split at h
      · cases h
        rename_i hset'
        refine ⟨?_, hset'⟩
        dsimp only
        omega
      · cases h

theorem advanceLoop_succ (template : SessionTemplate) (now : Int) (fuel : Nat)
    (st : RuntimeSessionState) :
    advanceLoop template now (fuel + 1) st =
      match st.phaseStartedAt with
      | none => { nextState := st, completed := false }
      | some ps =>
        if isRunningStatus st.status = false then { nextState := st, completed := false }
        else if elapsedWholeSeconds now ps < st.remainingSeconds then
          { nextState := st, completed := false }
        else
          match transitionAtBoundary st template (ps + st.remainingSeconds * 1000) with
          | none => { nextState := st, completed := true }
          | some transitioned => advanceLoop template now fuel transitioned := rfl

theorem advanceTraceLoop_succ (template : SessionTemplate) (now : Int) (fuel : Nat)
    (st : RuntimeSessionState) :
    advanceTraceLoop template now (fuel + 1) st =
      match st.phaseStartedAt with
      | none => []
      | some ps =>
        if isRunningStatus st.status = false then []
        else if elapsedWholeSeconds now ps < st.remainingSeconds then []
        else
          match transitionAtBoundary st template (ps + st.remainingSeconds * 1000) with
          | none => []
          | some transitioned =>
            transitioned :: advanceTraceLoop template now fuel transitioned := rfl

theorem advanceLoop_stay {template : SessionTemplate} {now : Int} {fuel : Nat}
    {st : RuntimeSessionState} {p : Int}
    (hps : st.phaseStartedAt = some p)
    (hlt : elapsedWholeSeconds now p < st.remainingSeconds)
    (hfuel : 1 ≤ fuel) :
    advanceLoop template now fuel st = ⟨st, false⟩ := by
  obtain ⟨f, rfl⟩ := Nat.exists_eq_add_of_le hfuel
  rw [show 1 + f = f + 1 by omega, advanceLoop_succ]
  simp only [hps]
  by_cases hr : isRunningStatus st.status = false
  · rw [if_pos hr]
  · rw [if_neg hr, if_pos hlt]

theorem advanceLoop_nextState_trace (template : SessionTemplate) (now : Int) :
    ∀ (fuel : Nat) (st : RuntimeSessionState),
      (advanceLoop template now fuel st).nextState =
        (advanceTraceLoop template now fuel st).getLastD st := by
  intro fuel
  induction fuel with
  | zero => intro st; rfl
  | succ f ih =>
    intro st
    rw [advanceLoop_succ, advanceTraceLoop_succ]
    rcases hps : st.phaseStartedAt with _ | ps
    · simp only []
      rfl
    · simp only []
      by_cases hr : isRunningStatus st.status = false
      · rw [if_pos hr, if_pos hr]; rfl
      · rw [if_neg hr, if_neg hr]
        by_cases hlt : elapsedWholeSeconds now ps < st.remainingSeconds
        · rw [if_pos hlt, if_pos hlt]; rfl
        · rw [if_neg hlt, if_neg hlt]
          rcases ht : transitionAtBoundary st template (ps + st.remainingSeconds * 1000) with _ | t
          · simp only []; rfl
          · simp only []
            rw [ih t, List.getLastD_cons]



theorem chain_boundaryStep_trace (template : SessionTemplate) (now : Int) :
    ∀ (fuel : Nat) (st : RuntimeSessionState),
      List.Chain boundaryStep st (advanceTraceLoop template now fuel st) := by
  intro fuel
  induction fuel with
  | zero => intro st; exact List.Chain.nil
  | succ f ih =>
    intro st
    rw [advanceTraceLoop_succ]
    rcases hps : st.phaseStartedAt with _ | ps
    · exact List.Chain.nil
    · simp only []
      by_cases hr : isRunningStatus st.status = false
      · rw [if_pos hr]; exact List.Chain.nil
      · rw [if_neg hr]
        by_cases hlt : elapsedWholeSeconds now ps < st.remainingSeconds
        · rw [if_pos hlt]; exact List.Chain.nil
        · rw [if_neg hlt]
          rcases ht : transitionAtBoundary st template (ps + st.remainingSeconds * 1000) with _ | t
          · exact List.Chain.nil
          · refine List.Chain.cons ?_ (ih t)
            intro q hq
            rw [hps] at hq
            cases hq
            exact (transitionAtBoundary_fields ht).1

theorem trace_length_le (template : SessionTemplate) (now : Int) :
    ∀ (fuel : Nat) (st : RuntimeSessionState),
      (advanceTraceLoop template now fuel st).length ≤ fuel := by
  intro fuel
  induction fuel with
  | zero => intro st; simp [advanceTraceLoop]
  | succ f ih =>
    intro st
    rw [advanceTraceLoop_succ]
    rcases hps : st.phaseStartedAt with _ | ps
    · simp
    · simp only []
      by_cases hr : isRunningStatus st.status = false
      · rw [if_pos hr]; simp
      · rw [if_neg hr]
        by_cases hlt : elapsedWholeSeconds now ps < st.remainingSeconds
        · rw [if_pos hlt]; simp
        · rw [if_neg hlt]
          rcases ht : transitionAtBoundary st template (ps + st.remainingSeconds * 1000) with _ | t
          · simp
          · have := ih t
            simp only [List.length_cons]
            omega

theorem advanceLoop_completed_of_trace_full (template : SessionTemplate) (now : Int) :
    ∀ (fuel : Nat) (st : RuntimeSessionState),
      (advanceTraceLoop template now fuel st).length = fuel →
      (advanceLoop template now fuel st).completed = true := by
  intro fuel
  induction fuel with
  | zero => intro st _; rfl
  | succ f ih =>
    intro st hlen
    rw [advanceTraceLoop_succ] at hlen
    rw [advanceLoop_succ]
    rcases hps : st.phaseStartedAt with _ | ps
    · rw [hps] at hlen
      simp at hlen
    · rw [hps] at hlen
      simp only [] at hlen
      simp only []
      by_cases hr : isRunningStatus st.status = false
      · rw [if_pos hr] at hlen; simp at hlen
      · rw [if_neg hr] at hlen
        rw [if_neg hr]
        by_cases hlt : elapsedWholeSeconds now ps < st.remainingSeconds
        · rw [if_pos hlt] at hlen; simp at hlen
        · rw [if_neg hlt] at hlen
          rw [if_neg hlt]
          rcases ht : transitionAtBoundary st template (ps + st.remainingSeconds * 1000) with _ | t
          · rfl
          · rw [ht] at hlen
            simp only [List.length_cons] at hlen
            simp only []
            exact ih t (by omega)

theorem trace_mem_paused_fields (template : SessionTemplate) (now : Int) :
    ∀ (fuel : Nat) (st : RuntimeSessionState),
      ∀ t ∈ advanceTraceLoop template now fuel st,
        t.pausedAt = none ∧ t.pausedPhase = none := by
  intro fuel
  induction fuel with
  | zero => intro st t ht; simp [advanceTraceLoop] at ht
  | succ f ih =>
    intro st t hmem
    rw [advanceTraceLoop_succ] at hmem
    rcases hps : st.phaseStartedAt with _ | ps
    · rw [hps] at hmem
      simp at hmem
    · rw [hps] at hmem
      simp only [] at hmem
      by_cases hr : isRunningStatus st.status = false
      · rw [if_pos hr] at hmem; simp at hmem
      · rw [if_neg hr] at hmem
        by_cases hlt : elapsedWholeSeconds now ps < st.remainingSeconds
        · rw [if_pos hlt] at hmem; simp at hmem
        · rw [if_neg hlt] at hmem
          rcases ht : transitionAtBoundary st template (ps + st.remainingSeconds * 1000) with _ | u
          · rw [ht] at hmem; simp at hmem
          · rw [ht] at hmem
            rcases List.mem_cons.mp hmem with h | h
            · subst h
              exact ⟨(transitionAtBoundary_fields ht).2.2.1, (transitionAtBoundary_fields ht).2.2.2⟩
            · exact ih u t h

theorem advance_at_exact_boundary {s : RuntimeSessionState} {template : SessionTemplate}
    {p : Int}
    (hne : template.exercises ≠ [])
    (hdur : ∀ e ∈ template.exercises, 0 < e.durationSeconds)
    (hrun : isRunningStatus s.status = true)
    (hps : s.phaseStartedAt = some p) :
    (∀ t, transitionAtBoundary s template (p + s.remainingSeconds * 1000) = some t →
        advanceRuntimeToNow s template (p + s.remainingSeconds * 1000) = ⟨t, false⟩) ∧
    (transitionAtBoundary s template (p + s.remainingSeconds * 1000) = none →
        advanceRuntimeToNow s template (p + s.remainingSeconds * 1000) = ⟨s, true⟩) := by
  have hcond : ¬ (isRunningStatus s.status = false ∨ s.phaseStartedAt = none) := by
    rw [hrun, hps]
    simp
  constructor
  · intro t ht
    unfold advanceRuntimeToNow
    rw [if_neg hcond]
    rw [show MAX_TRANSITIONS_PER_TICK = 511 + 1 from rfl, advanceLoop_succ, hps]
    simp only []
    rw [if_neg (by rw [hrun]; simp), if_neg (not_elapsed_lt_at_boundary p s.remainingSeconds), ht]
    exact advanceLoop_stay (transitionAtBoundary_fields ht).1
      (by rw [elapsed_self]; exact transitionAtBoundary_remaining_pos hne hdur ht)
      (by omega)
  · intro ht
    unfold advanceRuntimeToNow
    rw [if_neg hcond]
    rw [show MAX_TRANSITIONS_PER_TICK = 511 + 1 from rfl, advanceLoop_succ, hps]
    simp only []
    rw [if_neg (by rw [hrun]; simp), if_neg (not_elapsed_lt_at_boundary p s.remainingSeconds), ht]

theorem advanceRuntimeToNow_stay {s : RuntimeSessionState} {template : SessionTemplate}
    {p now : Int}
    (hps : s.phaseStartedAt = some p)
    (hrem : 0 < s.remainingSeconds)
    (hnow : now < p + s.remainingSeconds * 1000) :
    advanceRuntimeToNow s template now = ⟨s, false⟩ := by
  unfold advanceRuntimeToNow
  by_cases hcond : isRunningStatus s.status = false ∨ s.phaseStartedAt = none
  · rw [if_pos hcond]
  · rw [if_neg hcond]
    exact advanceLoop_stay hps (elapsed_lt_of_before_boundary hrem hnow) (by decide)


theorem transitionAtBoundary_inv {state t : RuntimeSessionState}
    {template : SessionTemplate} {bt : Int}
    (hne : template.exercises ≠ [])
    (hdur : ∀ e ∈ template.exercises, 0 < e.durationSeconds)
    (hinv : StateInv template state)
    (h : transitionAtBoundary state template bt = some t) :
    StateInv template t :=
  ⟨(transitionAtBoundary_indices hinv.1 hinv.2.1 h).1,
   (transitionAtBoundary_indices hinv.1 hinv.2.1 h).2,
   le_of_lt (transitionAtBoundary_remaining_pos hne hdur h)⟩

theorem advanceLoop_inv (template : SessionTemplate) (now : Int)
    (hne : template.exercises ≠ [])
    (hdur : ∀ e ∈ template.exercises, 0 < e.durationSeconds) :
    ∀ (fuel : Nat) (st : RuntimeSessionState), StateInv template st →
      StateInv template (advanceLoop template now fuel st).nextState := by
  intro fuel
  induction fuel with
  | zero => intro st h; exact h
  | succ f ih =>
    intro st h
    rw [advanceLoop_succ]
    rcases hps : st.phaseStartedAt with _ | ps
    · exact h
    · simp only []
      by_cases hr : isRunningStatus st.status = false
      · rw [if_pos hr]; exact h
      · rw [if_neg hr]
        by_cases hlt : elapsedWholeSeconds now ps < st.remainingSeconds
        · rw [if_pos hlt]; exact h
        · rw [if_neg hlt]
          rcases ht : transitionAtBoundary st template (ps + st.remainingSeconds * 1000) with _ | t
          · exact h
          · exact ih t (transitionAtBoundary_inv hne hdur h ht)

end Fitzig

/-! ### Claim theorems -/

namespace Fitzig

theorem trace_nil_of_not_running {template : SessionTemplate} {now : Int}
    {st : RuntimeSessionState}
    (h : isRunningStatus st.status = false ∨ st.phaseStartedAt = none) :
    ∀ fuel, advanceTraceLoop template now fuel st = [] := by
  intro fuel
  cases fuel with
  | zero => rfl
  | succ f =>
    rw [advanceTraceLoop_succ]
    rcases hps : st.phaseStartedAt with _ | ps
    · rfl
    · simp only []
      rcases h with h | h
      · rw [if_pos h]
      · rw [h] at hps
        exact absurd hps (by simp)

/-- Claim C1: for the template (push_up 45s, squat 45s, 3 sets, 20s cooldown)
with the session begun at t=0 (exercise phase, indices (0,0), 45s remaining,
phaseStartedAt = 0), a single advanceRuntimeToNow call at 45000ms yields
status cooldown with 20 seconds remaining; a single call at 65000ms yields
status exercise with currentExerciseIndex = 1, currentSetIndex = 0 and 45
seconds remaining; and a single call at 540000ms reports completed = true. -/
theorem claim_C1 :
    ((advanceRuntimeToNow ⟨.exercise, 0, 0, 45, some 0, some 0, none, none⟩
        ⟨"t1", "Demo", 3, 20, [⟨"push_up", 45, 0⟩, ⟨"squat", 45, 1⟩], 0⟩ 45000).nextState.status =
          SessionStatus.cooldown ∧
      (advanceRuntimeToNow ⟨.exercise, 0, 0, 45, some 0, some 0, none, none⟩
        ⟨"t1", "Demo", 3, 20, [⟨"push_up", 45, 0⟩, ⟨"squat", 45, 1⟩], 0⟩ 45000).nextState.remainingSeconds = 20 ∧
      (advanceRuntimeToNow ⟨.exercise, 0, 0, 45, some 0, some 0, none, none⟩
        ⟨"t1", "Demo", 3, 20, [⟨"push_up", 45, 0⟩, ⟨"squat", 45, 1⟩], 0⟩ 45000).completed = false) ∧
    ((advanceRuntimeToNow ⟨.exercise, 0, 0, 45, some 0, some 0, none, none⟩
        ⟨"t1", "Demo", 3, 20, [⟨"push_up", 45, 0⟩, ⟨"squat", 45, 1⟩], 0⟩ 65000).nextState.status =
          SessionStatus.exercise ∧
      (advanceRuntimeToNow ⟨.exercise, 0, 0, 45, some 0, some 0, none, none⟩
        ⟨"t1", "Demo", 3, 20, [⟨"push_up", 45, 0⟩, ⟨"squat", 45, 1⟩], 0⟩ 65000).nextState.currentExerciseIndex = 1 ∧
      (advanceRuntimeToNow ⟨.exercise, 0, 0, 45, some 0, some 0, none, none⟩
        ⟨"t1", "Demo", 3, 20, [⟨"push_up", 45, 0⟩, ⟨"squat", 45, 1⟩], 0⟩ 65000).nextState.currentSetIndex = 0 ∧
      (advanceRuntimeToNow ⟨.exercise, 0, 0, 45, some 0, some 0, none, none⟩
        ⟨"t1", "Demo", 3, 20, [⟨"push_up", 45, 0⟩, ⟨"squat", 45, 1⟩], 0⟩ 65000).nextState.remainingSeconds = 45 ∧
      (advanceRuntimeToNow ⟨.exercise, 0, 0, 45, some 0, some 0, none, none⟩
        ⟨"t1", "Demo", 3, 20, [⟨"push_up", 45, 0⟩, ⟨"squat", 45, 1⟩], 0⟩ 65000).completed = false) ∧
    (advanceRuntimeToNow ⟨.exercise, 0, 0, 45, some 0, some 0, none, none⟩
        ⟨"t1", "Demo", 3, 20, [⟨"push_up", 45, 0⟩, ⟨"squat", 45, 1⟩], 0⟩ 540000).completed = true := by
  decide

/-- Claim C3 (counterexample to the claim as stated): the claim asserts that
advanceRuntimeToNow is the identity for EVERY running state at every now
strictly before phaseStartedAt + remainingSeconds * 1000. For the running
state with remainingSeconds = 0 and phaseStartedAt = 1000 (the shape produced
by skip-cooldown) and now = 0 — which is strictly before the boundary
1000 + 0 * 1000 — the call nevertheless transitions, because the code clamps
elapsed time at 0 and 0 ≥ remainingSeconds already holds. -/
theorem claim_C3_counterexample :
    isRunningStatus (⟨.exercise, 0, 0, 0, some 1000, some 0, none, none⟩ :
        RuntimeSessionState).status = true ∧
    ((0 : Int) < 1000 + (0 : Int) * 1000) ∧
    (advanceRuntimeToNow ⟨.exercise, 0, 0, 0, some 1000, some 0, none, none⟩
        ⟨"t1", "Demo", 3, 20, [⟨"push_up", 45, 0⟩, ⟨"squat", 45, 1⟩], 0⟩ 0).nextState ≠
      ⟨.exercise, 0, 0, 0, some 1000, some 0, none, none⟩ := by
  decide

/-- Claim C3 (amended): advanceRuntimeToNow is the identity returning
completed = false (1) for every state whose status is idle or paused,
regardless of now and template, and (2) for every state with a phase anchor
and with remainingSeconds strictly positive, at every now strictly before
phaseStartedAt + remainingSeconds * 1000. (The original claim omitted the
positivity condition in (2); it fails for remainingSeconds = 0 with now
before phaseStartedAt.) -/
theorem claim_C3 (s : RuntimeSessionState) (template : SessionTemplate) (now : Int) :
    ((s.status = SessionStatus.idle ∨ s.status = SessionStatus.paused) →
      advanceRuntimeToNow s template now = ⟨s, false⟩) ∧
    (∀ p, s.phaseStartedAt = some p → 0 < s.remainingSeconds →
      now < p + s.remainingSeconds * 1000 →
      advanceRuntimeToNow s template now = ⟨s, false⟩) := by
  constructor
  · intro hs
    have hnot : isRunningStatus s.status = false := by
      rcases hs with h | h <;> rw [h] <;> rfl
    unfold advanceRuntimeToNow
    rw [if_pos (Or.inl hnot)]
  · intro p hps hrem hnow
    exact advanceRuntimeToNow_stay hps hrem hnow

/-- Witness for claim C3: a concrete paused state is left untouched, and a
concrete running state 500ms into a 45s phase is left untouched. -/
theorem claim_C3_witness :
    advanceRuntimeToNow ⟨.paused, 0, 0, 7, none, some 0, some 100, some .exercise⟩
        ⟨"t1", "Demo", 3, 20, [⟨"push_up", 45, 0⟩, ⟨"squat", 45, 1⟩], 0⟩ 999 =
      ⟨⟨.paused, 0, 0, 7, none, some 0, some 100, some .exercise⟩, false⟩ ∧
    advanceRuntimeToNow ⟨.exercise, 0, 0, 45, some 0, some 0, none, none⟩
        ⟨"t1", "Demo", 3, 20, [⟨"push_up", 45, 0⟩, ⟨"squat", 45, 1⟩], 0⟩ 500 =
      ⟨⟨.exercise, 0, 0, 45, some 0, some 0, none, none⟩, false⟩ :=
  ⟨(claim_C3 _ _ _).1 (Or.inr rfl),
   (claim_C3 _ _ _).2 0 rfl (by decide) (by decide)⟩

/-- Claim C5: for every input state, template and timestamp, one
advanceRuntimeToNow call performs at most 512 (MAX_TRANSITIONS_PER_TICK)
phase transitions — the instrumented transition trace of the call is bounded
— and when the 512-transition cap is hit the call reports completed = true
(forced completion) instead of looping; the call's resulting state is the
last transition of that bounded trace (or the input state when there is
none), so the function is total even for all-zero-duration templates. -/
theorem claim_C5 (s : RuntimeSessionState) (template : SessionTemplate) (now : Int) :
    (advanceTraceLoop template now MAX_TRANSITIONS_PER_TICK s).length ≤
      MAX_TRANSITIONS_PER_TICK ∧
    ((advanceTraceLoop template now MAX_TRANSITIONS_PER_TICK s).length =
        MAX_TRANSITIONS_PER_TICK →
      (advanceRuntimeToNow s template now).completed = true) ∧
    (advanceRuntimeToNow s template now).nextState =
      (advanceTraceLoop template now MAX_TRANSITIONS_PER_TICK s).getLastD s := by
  refine ⟨trace_length_le template now _ s, ?_, ?_⟩
  · intro hfull
    unfold advanceRuntimeToNow
    by_cases hcond : isRunningStatus s.status = false ∨ s.phaseStartedAt = none
    · rw [trace_nil_of_not_running hcond] at hfull
      exact absurd hfull (by decide)
    · rw [if_neg hcond]
      exact advanceLoop_completed_of_trace_full template now _ s hfull
  · unfold advanceRuntimeToNow
    by_cases hcond : isRunningStatus s.status = false ∨ s.phaseStartedAt = none
    · rw [if_pos hcond, trace_nil_of_not_running hcond]
      rfl
    · rw [if_neg hcond]
      exact advanceLoop_nextState_trace template now _ s

set_option maxRecDepth 40000 in
/-- Witness for claim C5: a one-exercise zero-duration template with a large
set count drives the loop into its cap: the trace has exactly 512 entries and
the call, applied through the claim theorem, reports forced completion. -/
theorem claim_C5_witness :
    (advanceTraceLoop ⟨"t5", "Zero", 1000000, 0, [⟨"push_up", 0, 0⟩], 0⟩ 0
        MAX_TRANSITIONS_PER_TICK ⟨.exercise, 0, 0, 0, some 0, some 0, none, none⟩).length =
      MAX_TRANSITIONS_PER_TICK ∧
    (advanceRuntimeToNow ⟨.exercise, 0, 0, 0, some 0, some 0, none, none⟩
        ⟨"t5", "Zero", 1000000, 0, [⟨"push_up", 0, 0⟩], 0⟩ 0).completed = true :=
  ⟨by decide,
   (claim_C5 ⟨.exercise, 0, 0, 0, some 0, some 0, none, none⟩
      ⟨"t5", "Zero", 1000000, 0, [⟨"push_up", 0, 0⟩], 0⟩ 0).2.1 (by decide)⟩

/-- Claim C6 (counterexample to the claim as stated): the claim's formula for
a running state is max(0, remainingSeconds - floor((now - phaseStartedAt)/1000))
and for a non-running state remainingSeconds unchanged. For the running state
with phaseStartedAt = 5000, remainingSeconds = 10 queried at now = 0, the code
returns 10 (it clamps the elapsed time at 0) while the claim's formula gives
15; and for an idle state with remainingSeconds = -3 the code returns 0, not
the field unchanged. -/
theorem claim_C6_counterexample :
    (isRunningStatus (⟨.exercise, 0, 0, 10, some 5000, some 0, none, none⟩ :
        RuntimeSessionState).status = true ∧
      getCurrentRemainingSeconds ⟨.exercise, 0, 0, 10, some 5000, some 0, none, none⟩ 0 = 10 ∧
      max 0 ((10 : Int) - ((0 : Int) - 5000) / 1000) = 15) ∧
    ((⟨.idle, 0, 0, -3, none, none, none, none⟩ : RuntimeSessionState).remainingSeconds = -3 ∧
      getCurrentRemainingSeconds ⟨.idle, 0, 0, -3, none, none, none, none⟩ 0 = 0) := by
  decide

/-- Claim C6 (amended): getCurrentRemainingSeconds returns
max(0, remainingSeconds) when the state is not running or has no phase
anchor, and max(0, remainingSeconds - floor(max(0, now - phaseStartedAt)/1000))
when running with an anchor — the elapsed time is clamped at zero before the
division, so a now earlier than phaseStartedAt counts as zero elapsed. Being
a pure function, it never mutates its argument. -/
theorem claim_C6 (s : RuntimeSessionState) (now : Int) :
    ((isRunningStatus s.status = false ∨ s.phaseStartedAt = none) →
      getCurrentRemainingSeconds s now = max 0 s.remainingSeconds) ∧
    (∀ p, isRunningStatus s.status = true → s.phaseStartedAt = some p →
      getCurrentRemainingSeconds s now =
        max 0 (s.remainingSeconds - max 0 (now - p) / 1000)) := by
  constructor
  · intro h
    unfold getCurrentRemainingSeconds
    rcases hps : s.phaseStartedAt with _ | ps
    · rfl
    · simp only []
      rcases h with h | h
      · rw [if_pos h]
      · rw [h] at hps
        exact absurd hps (by simp)
  · intro p hrun hps
    unfold getCurrentRemainingSeconds
    rw [hps]
    simp only []
    rw [if_neg (by rw [hrun]; simp)]
    have harith : elapsedWholeSeconds now p = max 0 (now - p) / 1000 := by
      unfold elapsedWholeSeconds
      omega
    rw [harith]

/-- Witness for claim C6: a paused state with 7s recorded and a running state
3s into a 10s phase, both evaluated through the claim theorem. -/
theorem claim_C6_witness :
    getCurrentRemainingSeconds ⟨.paused, 0, 0, 7, none, some 0, some 100, some .exercise⟩ 12345 =
      max 0 (7 : Int) ∧
    getCurrentRemainingSeconds ⟨.exercise, 0, 0, 10, some 0, some 0, none, none⟩ 3000 =
      max 0 ((10 : Int) - max 0 ((3000 : Int) - 0) / 1000) :=
  ⟨(claim_C6 _ _).1 (Or.inl (by decide)),
   (claim_C6 _ _).2 0 (by decide) rfl⟩

end Fitzig

namespace Fitzig

/-- Claim C2: for every running state (status exercise or cooldown, non-null
phaseStartedAt p) and valid template, (a) calling advanceRuntimeToNow at
exactly p + remainingSeconds * 1000 performs exactly one phase transition —
when a next phase exists the call returns exactly the single
transitionAtBoundary image with completed = false and that new phase's
phaseStartedAt is the crossed boundary; when no next phase exists it signals
completion; (b) every transition performed inside one call anchors the new
phase's phaseStartedAt to the crossed boundary phaseStartedAt +
remainingSeconds * 1000 rather than to now, i.e. the call's transition trace
is a chain of exact boundary steps; and (c) the call's result state is the
last state of that trace, so consecutive phase start times across a
multi-phase skip differ by exactly the intermediate phase durations. -/
theorem claim_C2 (s : RuntimeSessionState) (template : SessionTemplate) (p : Int)
    (hvalid : ValidTemplate template)
    (hrun : isRunningStatus s.status = true)
    (hps : s.phaseStartedAt = some p) :
    ((∀ t, transitionAtBoundary s template (p + s.remainingSeconds * 1000) = some t →
        advanceRuntimeToNow s template (p + s.remainingSeconds * 1000) = ⟨t, false⟩ ∧
        t.phaseStartedAt = some (p + s.remainingSeconds * 1000)) ∧
      (transitionAtBoundary s template (p + s.remainingSeconds * 1000) = none →
        advanceRuntimeToNow s template (p + s.remainingSeconds * 1000) = ⟨s, true⟩)) ∧
    (∀ now, List.Chain boundaryStep s
        (advanceTraceLoop template now MAX_TRANSITIONS_PER_TICK s)) ∧
    (∀ now, (advanceRuntimeToNow s template now).nextState =
        (advanceTraceLoop template now MAX_TRANSITIONS_PER_TICK s).getLastD s) := by
  obtain ⟨hne, hdur, -, -⟩ := hvalid
  refine ⟨⟨?_, ?_⟩, ?_, ?_⟩
  · intro t ht
    exact ⟨(advance_at_exact_boundary hne hdur hrun hps).1 t ht,
      (transitionAtBoundary_fields ht).1⟩
  · exact (advance_at_exact_boundary hne hdur hrun hps).2
  · intro now
    exact chain_boundaryStep_trace template now _ s
  · intro now
    unfold advanceRuntimeToNow
    rw [if_neg (by rw [hrun, hps]; simp)]
    exact advanceLoop_nextState_trace template now _ s

/-- Witness for claim C2: the demo template at the first exercise's exact
boundary 0 + 45 * 1000 transitions once, into the cooldown phase anchored at
45000. -/
theorem claim_C2_witness :
    ValidTemplate ⟨"t1", "Demo", 3, 20, [⟨"push_up", 45, 0⟩, ⟨"squat", 45, 1⟩], 0⟩ ∧
    isRunningStatus (⟨.exercise, 0, 0, 45, some 0, some 0, none, none⟩ :
        RuntimeSessionState).status = true ∧
    advanceRuntimeToNow ⟨.exercise, 0, 0, 45, some 0, some 0, none, none⟩
        ⟨"t1", "Demo", 3, 20, [⟨"push_up", 45, 0⟩, ⟨"squat", 45, 1⟩], 0⟩
        (0 + (45 : Int) * 1000) =
      ⟨⟨.cooldown, 0, 0, 20, some 45000, some 0, none, none⟩, false⟩ := by
  refine ⟨by decide, by decide, ?_⟩
  exact ((claim_C2 ⟨.exercise, 0, 0, 45, some 0, some 0, none, none⟩
      ⟨"t1", "Demo", 3, 20, [⟨"push_up", 45, 0⟩, ⟨"squat", 45, 1⟩], 0⟩ 0
      (by decide) (by decide) rfl).1.1
    ⟨.cooldown, 0, 0, 20, some 45000, some 0, none, none⟩ (by decide)).1

/-- Claim C9: pausing a running state when the remaining-time query reads 7
seconds (handlePause folds that 7 into remainingSeconds, clears the phase
anchor, records pausedAt/pausedPhase) and then resuming with the countdown
pre-roll disabled (handleResume re-enters the paused phase with a fresh
anchor at the resume instant tr) produces a state that re-enters the same
phase with 7 seconds and anchor tr; advanceRuntimeToNow leaves it untouched
at every now strictly before tr + 7 * 1000, and at exactly tr + 7 * 1000 it
crosses the boundary — one transition into the next phase when one exists,
completion otherwise. Not immediately, and not 14 seconds after. -/
theorem claim_C9 (s : RuntimeSessionState) (template : SessionTemplate)
    (tp tr cr cs : Int) (ct : Option SessionStatus)
    (hne : template.exercises ≠ [])
    (hdur : ∀ e ∈ template.exercises, 0 < e.durationSeconds)
    (hrun : isRunningStatus s.status = true)
    (hrem7 : getCurrentRemainingSeconds s tp = 7) :
    ((handleResume ⟨false, cs⟩ ⟨handlePause s tp, cr, ct⟩ tr).runtime.status = s.status ∧
      (handleResume ⟨false, cs⟩ ⟨handlePause s tp, cr, ct⟩ tr).runtime.remainingSeconds = 7 ∧
      (handleResume ⟨false, cs⟩ ⟨handlePause s tp, cr, ct⟩ tr).runtime.phaseStartedAt = some tr) ∧
    (∀ now, now < tr + 7 * 1000 →
      advanceRuntimeToNow (handleResume ⟨false, cs⟩ ⟨handlePause s tp, cr, ct⟩ tr).runtime
          template now =
        ⟨(handleResume ⟨false, cs⟩ ⟨handlePause s tp, cr, ct⟩ tr).runtime, false⟩) ∧
    (∀ t, transitionAtBoundary
          (handleResume ⟨false, cs⟩ ⟨handlePause s tp, cr, ct⟩ tr).runtime template
          (tr + 7 * 1000) = some t →
      advanceRuntimeToNow (handleResume ⟨false, cs⟩ ⟨handlePause s tp, cr, ct⟩ tr).runtime
          template (tr + 7 * 1000) = ⟨t, false⟩) ∧
    (transitionAtBoundary
          (handleResume ⟨false, cs⟩ ⟨handlePause s tp, cr, ct⟩ tr).runtime template
          (tr + 7 * 1000) = none →
      advanceRuntimeToNow (handleResume ⟨false, cs⟩ ⟨handlePause s tp, cr, ct⟩ tr).runtime
          template (tr + 7 * 1000) =
        ⟨(handleResume ⟨false, cs⟩ ⟨handlePause s tp, cr, ct⟩ tr).runtime, true⟩) := by
  have h1 : handlePause s tp =
      { s with
        status := .paused
        remainingSeconds := 7
        phaseStartedAt := none
        pausedAt := some tp
        pausedPhase := some s.status } := by
    unfold handlePause
    rw [if_neg (by rw [hrun]; simp), hrem7, if_pos hrun]
  have h2 : (handleResume ⟨false, cs⟩ ⟨handlePause s tp, cr, ct⟩ tr).runtime =
      ⟨s.status, s.currentExerciseIndex, s.currentSetIndex, 7, some tr, s.startedAt,
        none, none⟩ := by
    rw [h1]
    unfold handleResume startPhaseWithOptionalCountdown
    rw [if_neg (by simp), if_neg (by simp)]
    rfl
  rw [h2]
  have hrun' : isRunningStatus
      (⟨s.status, s.currentExerciseIndex, s.currentSetIndex, 7, some tr, s.startedAt,
        none, none⟩ : RuntimeSessionState).status = true := hrun
  refine ⟨⟨rfl, rfl, rfl⟩, ?_, ?_, ?_⟩
  · intro now hnow
    exact advanceRuntimeToNow_stay rfl (by show (0 : Int) < 7; decide) hnow
  · intro t ht
    exact (advance_at_exact_boundary hne hdur hrun' rfl).1 t ht
  · intro ht
    exact (advance_at_exact_boundary hne hdur hrun' rfl).2 ht

/-- Witness for claim C9: an exercise phase of 10s paused 3s in (so 7s
remain) and resumed at tr = 1000000 with countdown disabled; the theorem then
gives no transition just before 1007000 and the cooldown transition exactly
at 1007000. -/
theorem claim_C9_witness :
    getCurrentRemainingSeconds ⟨.exercise, 0, 0, 10, some 0, some 0, none, none⟩ 3000 = 7 ∧
    advanceRuntimeToNow
        (handleResume ⟨false, 3⟩ ⟨handlePause ⟨.exercise, 0, 0, 10, some 0, some 0, none, none⟩ 3000, 0, none⟩ 1000000).runtime
        ⟨"t1", "Demo", 3, 20, [⟨"push_up", 45, 0⟩, ⟨"squat", 45, 1⟩], 0⟩ 1006999 =
      ⟨(handleResume ⟨false, 3⟩ ⟨handlePause ⟨.exercise, 0, 0, 10, some 0, some 0, none, none⟩ 3000, 0, none⟩ 1000000).runtime, false⟩ ∧
    advanceRuntimeToNow
        (handleResume ⟨false, 3⟩ ⟨handlePause ⟨.exercise, 0, 0, 10, some 0, some 0, none, none⟩ 3000, 0, none⟩ 1000000).runtime
        ⟨"t1", "Demo", 3, 20, [⟨"push_up", 45, 0⟩, ⟨"squat", 45, 1⟩], 0⟩ (1000000 + 7 * 1000) =
      ⟨⟨.cooldown, 0, 0, 20, some 1007000, some 0, none, none⟩, false⟩ := by
  refine ⟨by decide, ?_, ?_⟩
  · exact (claim_C9 ⟨.exercise, 0, 0, 10, some 0, some 0, none, none⟩
      ⟨"t1", "Demo", 3, 20, [⟨"push_up", 45, 0⟩, ⟨"squat", 45, 1⟩], 0⟩
      3000 1000000 0 3 none (by decide) (by decide) (by decide) (by decide)).2.1
      1006999 (by decide)
  · exact (claim_C9 ⟨.exercise, 0, 0, 10, some 0, some 0, none, none⟩
      ⟨"t1", "Demo", 3, 20, [⟨"push_up", 45, 0⟩, ⟨"squat", 45, 1⟩], 0⟩
      3000 1000000 0 3 none (by decide) (by decide) (by decide) (by decide)).2.2.1
      ⟨.cooldown, 0, 0, 20, some 1007000, some 0, none, none⟩ (by decide)

/-- Claim C10 (counterexample to the claim as stated): the claim asserts
remainingSeconds ≥ 0 of the result for every input whose indices are in
range, without constraining the input's remainingSeconds. An idle input with
remainingSeconds = -1 and in-range indices is returned unchanged, so the
result violates remainingSeconds ≥ 0. -/
theorem claim_C10_counterexample :
    (⟨.idle, 0, 0, -1, none, none, none, none⟩ : RuntimeSessionState).currentExerciseIndex <
      (⟨"t1", "Demo", 3, 20, [⟨"push_up", 45, 0⟩, ⟨"squat", 45, 1⟩], 0⟩ :
        SessionTemplate).exercises.length ∧
    ((⟨.idle, 0, 0, -1, none, none, none, none⟩ : RuntimeSessionState).currentSetIndex : Int) <
      (⟨"t1", "Demo", 3, 20, [⟨"push_up", 45, 0⟩, ⟨"squat", 45, 1⟩], 0⟩ :
        SessionTemplate).setsCount ∧
    ¬ (0 ≤ (advanceRuntimeToNow ⟨.idle, 0, 0, -1, none, none, none, none⟩
        ⟨"t1", "Demo", 3, 20, [⟨"push_up", 45, 0⟩, ⟨"squat", 45, 1⟩], 0⟩ 0).nextState.remainingSeconds) := by
  decide

/-- Claim C10 (amended): for every template with a non-empty exercise list,
positive durations and non-negative cooldown, and every input state with
currentExerciseIndex in [0, exercises.length), currentSetIndex in
[0, setsCount) and non-negative remainingSeconds (the input-side half of the
invariant being kept, which the original claim left implicit), the state
returned by advanceRuntimeToNow keeps both indices in those ranges and
remainingSeconds ≥ 0; and every state produced by a boundary transition
inside the call has pausedAt = null and pausedPhase = null. -/
theorem claim_C10 (s : RuntimeSessionState) (template : SessionTemplate) (now : Int)
    (hne : template.exercises ≠ [])
    (hdur : ∀ e ∈ template.exercises, 0 < e.durationSeconds)
    (hcool : 0 ≤ template.cooldownSeconds)
    (hidx : s.currentExerciseIndex < template.exercises.length)
    (hset : (s.currentSetIndex : Int) < template.setsCount)
    (hrem : 0 ≤ s.remainingSeconds) :
    ((advanceRuntimeToNow s template now).nextState.currentExerciseIndex <
        template.exercises.length ∧
      ((advanceRuntimeToNow s template now).nextState.currentSetIndex : Int) <
        template.setsCount ∧
      0 ≤ (advanceRuntimeToNow s template now).nextState.remainingSeconds) ∧
    (∀ t ∈ advanceTraceLoop template now MAX_TRANSITIONS_PER_TICK s,
      t.pausedAt = none ∧ t.pausedPhase = none) := by
  constructor
  · have hinv : StateInv template s := ⟨hidx, hset, hrem⟩
    unfold advanceRuntimeToNow
    by_cases hcond : isRunningStatus s.status = false ∨ s.phaseStartedAt = none
    · rw [if_pos hcond]
      exact hinv
    · rw [if_neg hcond]
      have h := advanceLoop_inv template now hne hdur MAX_TRANSITIONS_PER_TICK s hinv
      exact ⟨h.1, h.2.1, h.2.2⟩
  · exact trace_mem_paused_fields template now _ s

/-- Witness for claim C10: the demo template and a mid-session running state
6 minutes in; the invariant holds of the result and the trace. -/
theorem claim_C10_witness :
    ((advanceRuntimeToNow ⟨.exercise, 1, 0, 45, some 65000, some 0, none, none⟩
        ⟨"t1", "Demo", 3, 20, [⟨"push_up", 45, 0⟩, ⟨"squat", 45, 1⟩], 0⟩ 360000).nextState.currentExerciseIndex <
        (⟨"t1", "Demo", 3, 20, [⟨"push_up", 45, 0⟩, ⟨"squat", 45, 1⟩], 0⟩ :
          SessionTemplate).exercises.length ∧
      ((advanceRuntimeToNow ⟨.exercise, 1, 0, 45, some 65000, some 0, none, none⟩
        ⟨"t1", "Demo", 3, 20, [⟨"push_up", 45, 0⟩, ⟨"squat", 45, 1⟩], 0⟩ 360000).nextState.currentSetIndex : Int) <
        (⟨"t1", "Demo", 3, 20, [⟨"push_up", 45, 0⟩, ⟨"squat", 45, 1⟩], 0⟩ :
          SessionTemplate).setsCount ∧
      0 ≤ (advanceRuntimeToNow ⟨.exercise, 1, 0, 45, some 65000, some 0, none, none⟩
        ⟨"t1", "Demo", 3, 20, [⟨"push_up", 45, 0⟩, ⟨"squat", 45, 1⟩], 0⟩ 360000).nextState.remainingSeconds) ∧
    (∀ t ∈ advanceTraceLoop ⟨"t1", "Demo", 3, 20, [⟨"push_up", 45, 0⟩, ⟨"squat", 45, 1⟩], 0⟩
        360000 MAX_TRANSITIONS_PER_TICK ⟨.exercise, 1, 0, 45, some 65000, some 0, none, none⟩,
      t.pausedAt = none ∧ t.pausedPhase = none) :=
  claim_C10 ⟨.exercise, 1, 0, 45, some 65000, some 0, none, none⟩
    ⟨"t1", "Demo", 3, 20, [⟨"push_up", 45, 0⟩, ⟨"squat", 45, 1⟩], 0⟩ 360000
    (by decide) (by decide) (by decide) (by decide) (by decide) (by decide)

end Fitzig

namespace Fitzig

/-- Claim C4: snapshot round-trip preserves remaining time. For every live
runtime state and timestamp now, encoding the state into a snapshot at now
(persistSnapshotNow recomputes remainingSeconds through the remaining-time
query and, when running, rewrites phaseStartedAt to now) and decoding it back
through normalizeSnapshotToRuntime yields a state whose remaining-time query
at the same now equals the original state's remaining-time query at now —
elapsed time is neither lost nor double-counted, for any countdown sub-state
and any decode-time fallback clock. -/
theorem claim_C4 (s : RuntimeSessionState) (templateId : String)
    (countdownRemaining : Int) (countdownTargetStatus : Option SessionStatus)
    (now decodeNow : Int) :
    getCurrentRemainingSeconds
      (normalizeSnapshotToRuntime
        (encodeSnapshot templateId s countdownRemaining countdownTargetStatus now) decodeNow)
      now =
    getCurrentRemainingSeconds s now := by
  rcases hps : s.phaseStartedAt with _ | p <;>
    rcases hstat : s.status <;>
      simp only [encodeSnapshot, normalizeSnapshotToRuntime, getCurrentRemainingSeconds,
        isRunningStatus, hps, hstat, elapsedWholeSeconds] <;>
      simp

/-- Claim C7 (counterexample to the claim as stated): the claim says the
decoder coerces a running-status/null-anchor snapshot to paused "with
pausedPhase equal to that running status and pausedAt set to the current
time". For a cooldown-status snapshot that already carries
pausedPhase = exercise and pausedAt = 5, the decoder keeps those stored
values (they are only fallbacks): the result is paused but its pausedPhase is
not cooldown and its pausedAt is not the decode-time clock 999. -/
theorem claim_C7_counterexample :
    ((⟨"t", 0, 0, .cooldown, 9, none, some 5, none, 0, some .exercise, none, none⟩ :
        ActiveSessionSnapshot).status = SessionStatus.cooldown ∧
      (⟨"t", 0, 0, .cooldown, 9, none, some 5, none, 0, some .exercise, none, none⟩ :
        ActiveSessionSnapshot).phaseStartedAt = none) ∧
    (normalizeSnapshotToRuntime
        ⟨"t", 0, 0, .cooldown, 9, none, some 5, none, 0, some .exercise, none, none⟩ 999).status =
      SessionStatus.paused ∧
    (normalizeSnapshotToRuntime
        ⟨"t", 0, 0, .cooldown, 9, none, some 5, none, 0, some .exercise, none, none⟩ 999).pausedPhase ≠
      some SessionStatus.cooldown ∧
    (normalizeSnapshotToRuntime
        ⟨"t", 0, 0, .cooldown, 9, none, some 5, none, 0, some .exercise, none, none⟩ 999).pausedAt ≠
      some (999 : Int) := by
  decide

/-- Claim C7 (amended): decoding a snapshot whose status is a running kind
(exercise or cooldown) but whose phaseStartedAt is null never produces a
running runtime state: normalizeSnapshotToRuntime coerces it to status
paused, keeps phaseStartedAt null, and sets pausedPhase to the snapshot's
stored pausedPhase — falling back to that running status when none is
stored — and pausedAt to the snapshot's stored pausedAt — falling back to
the current time when none is stored. Separately, a structurally malformed
stored value (non-object input, or a missing/ill-typed status, templateId,
currentExerciseIndex, currentSetIndex, remainingSeconds or updatedAt) is
rejected by normalizeActiveSnapshot returning null — exactly those inputs
and never by throwing (the decoder is a total function). -/
theorem claim_C7 :
    (∀ (snap : ActiveSessionSnapshot) (decodeNow : Int),
      (snap.status = SessionStatus.exercise ∨ snap.status = SessionStatus.cooldown) →
      snap.phaseStartedAt = none →
      (normalizeSnapshotToRuntime snap decodeNow).status = SessionStatus.paused ∧
      isRunningStatus (normalizeSnapshotToRuntime snap decodeNow).status = false ∧
      (normalizeSnapshotToRuntime snap decodeNow).phaseStartedAt = none ∧
      (normalizeSnapshotToRuntime snap decodeNow).pausedPhase =
        some (snap.pausedPhase.getD snap.status) ∧
      (normalizeSnapshotToRuntime snap decodeNow).pausedAt =
        some (snap.pausedAt.getD decodeNow)) ∧
    (∀ v : JsVal, normalizeActiveSnapshot v = none ↔ hasRequiredSnapshotFields v = false) := by
  constructor
  · intro snap decodeNow hs hps
    have hnp : ¬ (snap.status = SessionStatus.paused ∧ snap.pausedPhase = none) := by
      rcases hs with h | h <;> simp [h]
    unfold normalizeSnapshotToRuntime
    dsimp only
    rw [if_neg hnp, if_pos ⟨hs, hps⟩]
    exact ⟨rfl, rfl, rfl, rfl, rfl⟩
  · intro v
    unfold normalizeActiveSnapshot hasRequiredSnapshotFields
    by_cases hobj : isObjectLike v = false
    · rw [if_pos hobj, hobj]
      simp
    · have hobj' : isObjectLike v = true := by
        revert hobj; cases isObjectLike v <;> simp
      rw [if_neg hobj, hobj']
      simp only [Bool.true_and]
      rcases hstat : normalizeSessionStatus (jsField v "status") with _ | status
      · simp
      · simp only [Option.isSome_some, Bool.true_and]
        rcases htid : asString (jsField v "templateId") with _ | tid
        · simp
        · simp only []
          by_cases hlen : tid.length = 0
          · simp [hlen]
          · rw [if_neg hlen]
            have hlen' : (tid.length != 0) = true := by simpa using hlen
            rw [hlen']
            simp only [Bool.true_and]
            rcases h1 : asFiniteNumber (jsField v "currentExerciseIndex") with _ | a
            · simp
            · rcases h2 : asFiniteNumber (jsField v "currentSetIndex") with _ | b
              · simp
              · rcases h3 : asFiniteNumber (jsField v "remainingSeconds") with _ | c
                · simp
                · rcases h4 : asFiniteNumber (jsField v "updatedAt") with _ | d
                  · simp
                  · simp

/-- Witness for claim C7: an exercise-status snapshot with a null anchor and
no stored pause fields decodes, with decode clock 777, to a paused state with
pausedPhase exercise and pausedAt 777; and the non-object input null is
rejected exactly as the required-field check predicts. -/
theorem claim_C7_witness :
    ((⟨"t", 0, 0, .exercise, 9, none, none, none, 0, none, none, none⟩ :
        ActiveSessionSnapshot).status = SessionStatus.exercise ∨
      (⟨"t", 0, 0, .exercise, 9, none, none, none, 0, none, none, none⟩ :
        ActiveSessionSnapshot).status = SessionStatus.cooldown) ∧
    (normalizeSnapshotToRuntime
        ⟨"t", 0, 0, .exercise, 9, none, none, none, 0, none, none, none⟩ 777).status =
      SessionStatus.paused ∧
    (normalizeSnapshotToRuntime
        ⟨"t", 0, 0, .exercise, 9, none, none, none, 0, none, none, none⟩ 777).pausedPhase =
      some SessionStatus.exercise ∧
    (normalizeSnapshotToRuntime
        ⟨"t", 0, 0, .exercise, 9, none, none, none, 0, none, none, none⟩ 777).pausedAt =
      some (777 : Int) ∧
    (normalizeActiveSnapshot JsVal.null = none ↔
      hasRequiredSnapshotFields JsVal.null = false) := by
  refine ⟨Or.inl rfl, ?_, ?_, ?_, ?_⟩
  · exact (claim_C7.1 ⟨"t", 0, 0, .exercise, 9, none, none, none, 0, none, none, none⟩ 777
      (Or.inl rfl) rfl).1
  · exact (claim_C7.1 ⟨"t", 0, 0, .exercise, 9, none, none, none, 0, none, none, none⟩ 777
      (Or.inl rfl) rfl).2.2.2.1
  · exact (claim_C7.1 ⟨"t", 0, 0, .exercise, 9, none, none, none, 0, none, none, none⟩ 777
      (Or.inl rfl) rfl).2.2.2.2
  · exact claim_C7.2 JsVal.null

/-- Claim C8: snapshot expiry is decided strictly against the 24-hour ceiling
SNAPSHOT_MAX_AGE_MS on updatedAt. At resume time, for every snapshot and
template: with updatedAt = now - 24h - 1ms the resume load rejects the
snapshot with the user-facing session-expired outcome (no restore is
attempted), and with updatedAt = now - 24h + 1ms it accepts it and restores
through normalizeSnapshotToRuntime. -/
theorem claim_C8 (snap : ActiveSessionSnapshot) (template : SessionTemplate) (now : Int) :
    resumeLoad (some { snap with updatedAt := now - SNAPSHOT_MAX_AGE_MS - 1 })
        (some template) now = ResumeLoadResult.sessionExpired ∧
    resumeLoad (some { snap with updatedAt := now - SNAPSHOT_MAX_AGE_MS + 1 })
        (some template) now =
      ResumeLoadResult.restored template
        (normalizeSnapshotToRuntime { snap with updatedAt := now - SNAPSHOT_MAX_AGE_MS + 1 } now)
        (max 0 (snap.countdownRemaining.getD 0))
        (match snap.countdownTargetStatus with
         | some SessionStatus.exercise => some SessionStatus.exercise
         | some SessionStatus.cooldown => some SessionStatus.cooldown
         | _ => none) := by
  constructor
  · unfold resumeLoad
    dsimp only
    rw [if_pos (show now - (now - SNAPSHOT_MAX_AGE_MS - 1) > SNAPSHOT_MAX_AGE_MS by omega)]
  · unfold resumeLoad
    dsimp only
    rw [if_neg (show ¬ now - (now - SNAPSHOT_MAX_AGE_MS + 1) > SNAPSHOT_MAX_AGE_MS by omega)]

end Fitzig
